import Mathlib

/-!
Verification of the smart_rag_project pipeline.

This file gives a shallow embedding of the repository's core code — the
chunker (src/processor/chunker.py), the index builder
(src/indexer/build_index.py) and the streaming query service
(src/rag_service/app.py) — and proves theorems settling the specification's
claims about them.

Modelling conventions:
* Python strings are Lean `String`s; `str.strip()` is `pyStrip`, written out
  on the character list so its length behaviour is provable.
* The tokenizer `token_len` (an external tiktoken encoding in the source) is
  a parameter `tok : String → Nat`, as the spec requires it to be pluggable.
* The embedding provider `genai.embed_content` is a parameter
  `embed : String → Option (List ℚ)`; `none` models a raised exception.
  Vector components are rationals (no claim depends on float rounding).
* The md5 digest (hashlib) is a parameter `md5 : List Nat → String` over the
  concatenated file bytes.
* Filesystem state is an explicit `World` (builder) or `ServiceWorld`
  (query service) record; a raised-and-propagated exception is `Except`.
-/

set_option maxRecDepth 16384

/-! ### Chunker (src/processor/chunker.py) -/

/-- Constant MAX_TOKENS = 450 (chunker.py line 10). -/
def MAX_TOKENS : Nat := 450

/-- Constant MIN_TOKENS = 60 (chunker.py line 11). -/
def MIN_TOKENS : Nat := 60

/-- Python `str.strip()`: drop whitespace from both ends of the string. -/
def pyStrip (s : String) : String :=
  String.mk (((s.data.dropWhile Char.isWhitespace).reverse.dropWhile Char.isWhitespace).reverse)

/-- Python `"\n".join(cur)`. -/
def joinLines (cur : List String) : String := String.intercalate "\n" cur

/-- Python `ln.startswith("#")`. -/
def startsWithHash (s : String) : Bool :=
  match s.data with
  | [] => false
  | c :: _ => c = '#'

/-- Closing the accumulator buffer as a candidate chunk: the stripped joined
text is emitted only when its token length exceeds MIN_TOKENS (the repeated
snippet at chunker.py lines 36-40 and 46-49). -/
def closeBuffer (tok : String → Nat) (cur : List String) : List String :=
  if cur.isEmpty then []
  else if MIN_TOKENS < tok (pyStrip (joinLines cur)) then [pyStrip (joinLines cur)] else []

/-- The loop of `chunk_heading_recursive` (chunker.py lines 33-49) with the
accumulator `cur` made explicit: a heading line first closes a non-empty
buffer, the line is appended, and a buffer whose joined text exceeds
MAX_TOKENS is force-closed unconditionally; the trailing buffer is closed at
end of input. -/
def chunkAux (tok : String → Nat) : List String → List String → List String
  | [], cur => closeBuffer tok cur
  | ln :: rest, cur =>
    let headChunks := if startsWithHash ln then closeBuffer tok cur else []
    let cur1 := if startsWithHash ln then [] else cur
    let cur2 := cur1 ++ [ln]
    if MAX_TOKENS < tok (joinLines cur2) then
      headChunks ++ pyStrip (joinLines cur2) :: chunkAux tok rest []
    else
      headChunks ++ chunkAux tok rest cur2

/-- `chunk_heading_recursive(lines)` (chunker.py line 31), parameterised by the
pluggable tokenizer `token_len`. -/
def chunk_heading_recursive (tok : String → Nat) (lines : List String) : List String :=
  chunkAux tok lines []

/-- Why a chunk was closed: at a heading line, by the MAX_TOKENS force-close,
or at end of input. -/
inductive CloseReason where
  | heading
  | size
  | endOfInput
deriving DecidableEq

/-- `closeBuffer` instrumented with the close reason. -/
def closeBufferR (tok : String → Nat) (why : CloseReason) (cur : List String) :
    List (CloseReason × String) :=
  if cur.isEmpty then []
  else if MIN_TOKENS < tok (pyStrip (joinLines cur)) then [(why, pyStrip (joinLines cur))]
  else []

/-- `chunkAux` instrumented with the close reason of every emitted chunk. -/
def chunkAuxR (tok : String → Nat) : List String → List String → List (CloseReason × String)
  | [], cur => closeBufferR tok CloseReason.endOfInput cur
  | ln :: rest, cur =>
    let headChunks := if startsWithHash ln then closeBufferR tok CloseReason.heading cur else []
    let cur1 := if startsWithHash ln then [] else cur
    let cur2 := cur1 ++ [ln]
    if MAX_TOKENS < tok (joinLines cur2) then
      headChunks ++ (CloseReason.size, pyStrip (joinLines cur2)) :: chunkAuxR tok rest []
    else
      headChunks ++ chunkAuxR tok rest cur2

/-- Erasing the close reason from an instrumented buffer close recovers the
plain buffer close. -/
theorem closeBufferR_map_snd (tok : String → Nat) (why : CloseReason) (cur : List String) :
    (closeBufferR tok why cur).map Prod.snd = closeBuffer tok cur := by
  unfold closeBufferR closeBuffer
  by_cases h1 : cur.isEmpty <;>
    by_cases h2 : MIN_TOKENS < tok (pyStrip (joinLines cur)) <;>
      simp [h1, h2]

/-- Erasing the close reasons recovers the plain chunker. -/
theorem chunkAuxR_map_snd (tok : String → Nat) (lines : List String) :
    ∀ cur, (chunkAuxR tok lines cur).map Prod.snd = chunkAux tok lines cur := by
  induction lines with
  | nil =>
    intro cur
    simp only [chunkAuxR, chunkAux, closeBufferR_map_snd]
  | cons ln rest ih =>
    intro cur
    simp only [chunkAuxR, chunkAux]
    by_cases hh : startsWithHash ln
    · by_cases hts : MAX_TOKENS < tok (joinLines [ln]) <;>
        simp [hh, hts, closeBufferR_map_snd, ih]
    · by_cases hts : MAX_TOKENS < tok (joinLines (cur ++ [ln])) <;>
        simp [hh, hts, closeBufferR_map_snd, ih]

/-- Membership in an instrumented buffer close determines the reason and text
and forces the buffer to be non-empty. -/
theorem mem_closeBufferR {tok : String → Nat} {why : CloseReason} {cur : List String}
    {r : CloseReason} {txt : String} (h : (r, txt) ∈ closeBufferR tok why cur) :
    r = why ∧ txt = pyStrip (joinLines cur) ∧ cur.isEmpty = false := by
  unfold closeBufferR at h
  by_cases h1 : cur.isEmpty
  · simp [h1] at h
  · by_cases h2 : MIN_TOKENS < tok (pyStrip (joinLines cur))
    · simp [h1, h2] at h
      exact ⟨h.1, h.2, by simp [h1]⟩
    · simp [h1, h2] at h

/-- Dropping a prefix never lengthens a list. -/
theorem length_dropWhile_le (p : Char → Bool) (l : List Char) :
    (l.dropWhile p).length ≤ l.length := by
  induction l with
  | nil => simp
  | cons c cs ih =>
    by_cases hpc : p c
    · simp only [List.dropWhile, hpc]
      exact Nat.le_succ_of_le ih
    · simp [List.dropWhile, hpc]

/-- Python str.strip never lengthens a string. -/
theorem pyStrip_length_le (s : String) : (pyStrip s).length ≤ s.length := by
  calc (pyStrip s).length
      = ((s.data.dropWhile Char.isWhitespace).reverse.dropWhile Char.isWhitespace).reverse.length :=
        rfl
    _ = ((s.data.dropWhile Char.isWhitespace).reverse.dropWhile Char.isWhitespace).length := by
        simp
    _ ≤ (s.data.dropWhile Char.isWhitespace).reverse.length := length_dropWhile_le _ _
    _ = (s.data.dropWhile Char.isWhitespace).length := by simp
    _ ≤ s.data.length := length_dropWhile_le _ _
    _ = s.length := rfl

/-- Every chunk the instrumented chunker emits for a reason other than the
MAX_TOKENS force-close comes from a buffer that was within MAX_TOKENS, so its
(stripped) text is within MAX_TOKENS for any tokenizer that trimming does not
increase. -/
theorem chunkAuxR_nonsize_bounded (tok : String → Nat)
    (htok : ∀ s, tok (pyStrip s) ≤ tok s) :
    ∀ (lines cur : List String), (cur = [] ∨ tok (joinLines cur) ≤ MAX_TOKENS) →
      ∀ r txt, (r, txt) ∈ chunkAuxR tok lines cur → r ≠ CloseReason.size →
        tok txt ≤ MAX_TOKENS := by
  intro lines
  induction lines with
  | nil =>
    intro cur hinv r txt hmem _
    obtain ⟨-, htxt, hne⟩ := mem_closeBufferR hmem
    rcases hinv with h | h
    · subst h; simp at hne
    · subst htxt; exact le_trans (htok _) h
  | cons ln rest ih =>
    intro cur hinv r txt hmem hns
    have hclose : ∀ why, (r, txt) ∈ closeBufferR tok why cur → tok txt ≤ MAX_TOKENS := by
      intro why hm
      obtain ⟨-, htxt, hne⟩ := mem_closeBufferR hm
      rcases hinv with h | h
      · subst h; simp at hne
      · subst htxt; exact le_trans (htok _) h
    simp only [chunkAuxR] at hmem
    by_cases hh : startsWithHash ln
    · simp only [hh, if_true, List.nil_append] at hmem
      by_cases hts : MAX_TOKENS < tok (joinLines [ln])
      · rw [if_pos hts] at hmem
        rcases List.mem_append.mp hmem with hm | hm
        · exact hclose _ hm
        · rcases List.mem_cons.mp hm with hm | hm
          · exact absurd (congrArg Prod.fst hm) hns
          · exact ih [] (Or.inl rfl) r txt hm hns
      · rw [if_neg hts] at hmem
        rcases List.mem_append.mp hmem with hm | hm
        · exact hclose _ hm
        · exact ih [ln] (Or.inr (Nat.le_of_not_lt hts)) r txt hm hns
    · simp only [hh, Bool.false_eq_true, if_false, List.nil_append] at hmem
      by_cases hts : MAX_TOKENS < tok (joinLines (cur ++ [ln]))
      · rw [if_pos hts] at hmem
        rcases List.mem_cons.mp hmem with hm | hm
        · exact absurd (congrArg Prod.fst hm) hns
        · exact ih [] (Or.inl rfl) r txt hm hns
      · rw [if_neg hts] at hmem
        exact ih (cur ++ [ln]) (Or.inr (Nat.le_of_not_lt hts)) r txt hmem hns

/-- A concrete admissible tokenizer (character count) used for concrete runs:
the spec's token_len is pluggable, and character count never increases under
stripping. -/
def strTok : String → Nat := String.length

/-- A 451-character line: its strTok token length exceeds MAX_TOKENS. -/
def bigLine : String := String.mk (List.replicate 451 'a')

/-- A 100-character line: between MIN_TOKENS and MAX_TOKENS under strTok. -/
def medLine : String := String.mk (List.replicate 100 'b')

/-- C3 counterexample: on the two-line document [bigLine, medLine] the chunker
emits two chunks, and the first — not the final chunk of the document — has
token length 451 > MAX_TOKENS: the force-close fires only after the buffer
already exceeds MAX_TOKENS, so the force-closed chunk itself exceeds it. -/
theorem oversize_nonfinal_chunk :
    (chunk_heading_recursive strTok [bigLine, medLine]).map strTok = [451, 100] ∧
      MAX_TOKENS < 451 := by
  constructor
  · rfl
  · decide

/-- C3 (amended): for every tokenizer that stripping does not increase, every
chunk closed at a heading line or at end of input has token length at most
MAX_TOKENS; only chunks emitted by the MAX_TOKENS force-close (reason
CloseReason.size) can exceed the bound, and such a chunk need not be the final
chunk of the document. The instrumented run projects to the chunker's actual
output. -/
theorem nonforce_chunks_within_max_tokens (tok : String → Nat)
    (htok : ∀ s, tok (pyStrip s) ≤ tok s) (lines : List String)
    (r : CloseReason) (txt : String) (hmem : (r, txt) ∈ chunkAuxR tok lines [])
    (hr : r ≠ CloseReason.size) :
    tok txt ≤ MAX_TOKENS ∧
      (chunkAuxR tok lines []).map Prod.snd = chunk_heading_recursive tok lines :=
  ⟨chunkAuxR_nonsize_bounded tok htok lines [] (Or.inl rfl) r txt hmem hr,
    chunkAuxR_map_snd tok lines []⟩

/-- Witness for nonforce_chunks_within_max_tokens at a concrete input: the
single-line document [medLine] emits one end-of-input chunk of token length
100 ≤ MAX_TOKENS. -/
theorem nonforce_chunks_within_max_tokens_witness :
    strTok medLine ≤ MAX_TOKENS ∧
      (chunkAuxR strTok [medLine] []).map Prod.snd = chunk_heading_recursive strTok [medLine] :=
  nonforce_chunks_within_max_tokens strTok pyStrip_length_le [medLine]
    CloseReason.endOfInput medLine (by decide) (by decide)

/-- C4 counterexample: the single-line document ["hi"] accumulates into one
trailing buffer of token length 2 < MIN_TOKENS, which would be the document's
only chunk, yet the chunker emits no chunk at all: the end-of-input close
drops any buffer at or below MIN_TOKENS with no exception for a document's
only chunk. -/
theorem only_chunk_below_min_dropped :
    strTok (pyStrip (joinLines ["hi"])) < MIN_TOKENS ∧
      chunk_heading_recursive strTok ["hi"] = [] := by
  decide

/-- Processing a run of non-heading lines that never pushes the buffer past
MAX_TOKENS keeps everything in one buffer, and the end-of-input close drops
that buffer when it is at most MIN_TOKENS. -/
theorem chunkAux_single_buffer (tok : String → Nat) :
    ∀ (rest cur : List String),
      (∀ ln ∈ rest, startsWithHash ln = false) →
      (∀ n, 0 < n → n ≤ rest.length → tok (joinLines (cur ++ rest.take n)) ≤ MAX_TOKENS) →
      tok (pyStrip (joinLines (cur ++ rest))) ≤ MIN_TOKENS →
      chunkAux tok rest cur = [] := by
  intro rest
  induction rest with
  | nil =>
    intro cur _ _ hmin
    rw [List.append_nil] at hmin
    simp only [chunkAux, closeBuffer]
    by_cases h1 : cur.isEmpty
    · simp [h1]
    · simp [h1, Nat.not_lt.mpr hmin]
  | cons ln rest ih =>
    intro cur hhead hmax hmin
    have hln : startsWithHash ln = false := hhead ln (by simp)
    have h1 : tok (joinLines (cur ++ [ln])) ≤ MAX_TOKENS := by
      simpa using hmax 1 (by omega) (by simp)
    simp only [chunkAux, hln, Bool.false_eq_true, if_false, List.nil_append]
    rw [if_neg (Nat.not_lt.mpr h1)]
    refine ih (cur ++ [ln]) (fun l hl => hhead l (by simp [hl])) ?_ ?_
    · intro n hn hnle
      have := hmax (n + 1) (by omega) (by simpa using Nat.succ_le_succ hnle)
      simpa [List.append_assoc] using this
    · simpa [List.append_assoc] using hmin

/-- C4 (amended): the below-MIN_TOKENS drop applies even to a document's only
chunk: for every tokenizer and every document whose lines accumulate into a
single trailing buffer — no line after the first begins a heading and no
prefix of the lines exceeds MAX_TOKENS, so no chunk is closed before end of
input — whose joined stripped text has token length at most MIN_TOKENS, the
chunker yields zero chunks: the trailing buffer is dropped although it would
have been the document's only chunk. -/
theorem trailing_buffer_below_min_yields_no_chunks (tok : String → Nat)
    (lines : List String)
    (hhead : ∀ ln ∈ lines.tail, startsWithHash ln = false)
    (hmax : ∀ n, 0 < n → n ≤ lines.length → tok (joinLines (lines.take n)) ≤ MAX_TOKENS)
    (hmin : tok (pyStrip (joinLines lines)) ≤ MIN_TOKENS) :
    chunk_heading_recursive tok lines = [] := by
  cases lines with
  | nil => rfl
  | cons first others =>
    unfold chunk_heading_recursive
    have hfirst : tok (joinLines [first]) ≤ MAX_TOKENS := by
      simpa using hmax 1 (by omega) (by simp)
    simp only [chunkAux, closeBuffer, List.isEmpty_nil, if_true, ite_self, List.nil_append]
    rw [if_neg (Nat.not_lt.mpr hfirst)]
    refine chunkAux_single_buffer tok others [first] (by simpa using hhead) ?_ ?_
    · intro n hn hnle
      have := hmax (n + 1) (by omega) (by simpa using Nat.succ_le_succ hnle)
      simpa using this
    · simpa using hmin

/-- Witness for trailing_buffer_below_min_yields_no_chunks at the concrete
two-line document ["# Intro", "hi"]: the heading opens the buffer, the second
line joins it, the combined buffer has token length 10 ≤ MIN_TOKENS, and the
document yields zero chunks. -/
theorem trailing_buffer_below_min_yields_no_chunks_witness :
    chunk_heading_recursive strTok ["# Intro", "hi"] = [] :=
  trailing_buffer_below_min_yields_no_chunks strTok ["# Intro", "hi"]
    (by decide)
    (by
      intro n h1 h2
      have h2x : n ≤ 2 := by simpa using h2
      have hn : n = 1 ∨ n = 2 := by omega
      rcases hn with hn | hn <;> subst hn <;> decide)
    (by decide)

/-! ### Persisted index file paths (src/indexer/build_index.py line 11,
src/rag_service/app.py lines 18-21) -/

/-- The index builder's FAISS_FILE constant, "aiss_index.index"
(build_index.py line 11); a relative path, resolved against the builder's
working directory. -/
def FAISS_FILE_builder : String := "aiss_index.index"

/-- The query service's FAISS_FILE basename, "faiss_index.index", joined under
PARENT_DIR (app.py line 21). -/
def FAISS_FILE_service : String := "faiss_index.index"

/-- The absolute path the builder writes the index to, for a given working
directory (build_index.py line 170: faiss.write_index(index, FAISS_FILE)). -/
def builderFaissPath (cwd : String) : String := cwd ++ "/" ++ FAISS_FILE_builder

/-- The absolute path the query service reads the index from, for a given
PARENT_DIR (app.py line 21: os.path.join(PARENT_DIR, "faiss_index.index")). -/
def serviceFaissPath (parentDir : String) : String := parentDir ++ "/" ++ FAISS_FILE_service

/-- C2: for every working directory of the builder and every PARENT_DIR of the
query service, the file the builder writes is never the file the service
reads: the two paths end in different basenames ("/aiss_index.index" vs
"/faiss_index.index"), so no choice of directories can make them equal. -/
theorem builder_index_path_never_read_by_service (cwd parentDir : String) :
    builderFaissPath cwd ≠ serviceFaissPath parentDir := by
  intro h
  have hd : cwd.data ++ ("/" ++ FAISS_FILE_builder).data
      = parentDir.data ++ ("/" ++ FAISS_FILE_service).data := by
    have h2 := congrArg String.data h
    simpa [builderFaissPath, serviceFaissPath, String.data_append, List.append_assoc] using h2
  have hrev := congrArg List.reverse hd
  rw [List.reverse_append, List.reverse_append] at hrev
  have h16 := congrArg (fun l => l[16]?) hrev
  simp only at h16
  rw [List.getElem?_append_left (by decide), List.getElem?_append_left (by decide)] at h16
  exact absurd h16 (by decide)

/-! ### Query service (src/rag_service/app.py) -/

/-- An HTTPException as fastapi raises it: status code and detail string. -/
structure HTTPErr where
  status : Nat
  detail : String
deriving DecidableEq

/-- Python str(e) on a starlette HTTPException renders "status: detail". -/
def strOfHTTPErr (e : HTTPErr) : String := toString e.status ++ ": " ++ e.detail

/-- One record of meta.json as the service reads it, with the defaults
meta.get supplies (app.py lines 92-95). -/
structure MetaJson where
  text : String
  url : String
  title : String
  position : Nat
deriving DecidableEq

/-- One retrieved document as assembled by retrieve_top_k (app.py lines 90-96). -/
structure RetDoc where
  distance : ℚ
  text : String
  url : String
  title : String
  position : Nat
deriving DecidableEq

/-- Python s[:n] on a string. -/
def pyTake (n : Nat) (s : String) : String := String.mk (s.data.take n)

/-- Python list indexing with an integer index, including the negative-index
wraparound, with a default for the out-of-range case. -/
def pyGetD {α : Type} (l : List α) (i : Int) (d : α) : α :=
  if 0 ≤ i then l.getD i.toNat d else l.getD (l.length - (-i).toNat) d

/-- The query service's observable environment: whether the index and
metadata files exist, their contents, the query-embedding provider (none
models a raised exception with that message), and the faiss search oracle
giving the (distance, index) rows for an embedding and a top_k. -/
structure ServiceWorld where
  faissExists : Bool
  metaExists : Bool
  metas : List MetaJson
  embedOutcome : String → Except String (List ℚ)
  search : List ℚ → Nat → List (ℚ × Int)

/-- embed_query (app.py lines 56-66): a provider failure is re-raised as an
HTTPException with status 500 and the exception text as detail. -/
def embed_query (w : ServiceWorld) (query : String) : Except HTTPErr (List ℚ) :=
  match w.embedOutcome query with
  | .ok v => .ok v
  | .error msg => .error ⟨500, msg⟩

/-- retrieve_top_k (app.py lines 68-100): missing index or metadata raises
HTTPException(404, ...); the result rows skip the faiss sentinel -1 and any
out-of-range index, and truncate text to 1500 characters. The surrounding
try/except catches EVERY exception — including the 404 HTTPExceptions raised
inside — and re-raises HTTPException(500, str(e)). -/
def retrieve_top_k (parentDir : String) (w : ServiceWorld) (query : String) (topK : Nat) :
    Except HTTPErr (List RetDoc) :=
  let body : Except HTTPErr (List RetDoc) :=
    if !w.faissExists then
      .error ⟨404, "Index not found at: " ++ serviceFaissPath parentDir⟩
    else if !w.metaExists then
      .error ⟨404, "Metadata not found at: " ++ (parentDir ++ "/" ++ "meta.json")⟩
    else
      match embed_query w query with
      | .error e => .error e
      | .ok emb =>
        .ok ((w.search emb topK).foldl (fun acc di =>
          if di.2 = -1 ∨ (w.metas.length : Int) ≤ di.2 then acc
          else
            let m := pyGetD w.metas di.2 ⟨"", "", "", 0⟩
            acc ++ [⟨di.1, pyTake 1500 m.text, m.url, m.title, m.position⟩]) [])
  match body with
  | .ok r => .ok r
  | .error e => .error ⟨500, strOfHTTPErr e⟩

/-- C5: with the index file absent, retrieve_top_k does not surface the
distinct 404 "Index not found" error it raises internally: the blanket
except-Exception handler rewraps it, and the caller observes a generic
status-500 failure whose message merely embeds the original 404 text. -/
theorem index_missing_yields_generic_500 :
    retrieve_top_k "/srv" ⟨false, false, [], fun _ => .ok [], fun _ _ => []⟩ "q" 5
      = .error ⟨500, "404: Index not found at: /srv/faiss_index.index"⟩ := by
  rfl

/-- One item of the sources event payload (app.py lines 139-145):
snippet is the first 250 characters of the retrieved text plus "...". -/
structure SourceItem where
  title : String
  url : String
  snippet : String
  distance : ℚ
  position : Nat
deriving DecidableEq

/-- A server-sent event of the /chat stream, discriminated by its type tag
(app.py lines 133, 147, 175, 179, 183, 186). -/
inductive SseEvent where
  | sources (payload : List SourceItem)
  | token (content : String)
  | done
  | error (message : String)
deriving DecidableEq

/-- The sources payload built from one retrieved document (app.py 139-145). -/
def mkSourceItem (d : RetDoc) : SourceItem :=
  ⟨d.title, d.url, pyTake 250 d.text ++ "...", d.distance, d.position⟩

/-- event_generator (app.py lines 126-186) as the list of events the stream
delivers, paired with whether the generation provider was invoked.
`retrieval` is the outcome of retrieve_top_k; `frags` are the content-bearing
fragments the generation provider yields before it either completes
(`genErr = none`) or raises with message m (`genErr = some m`). A raised
HTTPException becomes one error event carrying its detail; any other raised
exception becomes one error event carrying str(e); after the mid-stream error
the generator stops, so no done event follows. -/
def event_generator (retrieval : Except HTTPErr (List RetDoc))
    (frags : List String) (genErr : Option String) : List SseEvent × Bool :=
  match retrieval with
  | .error e => ([SseEvent.error e.detail], false)
  | .ok docs =>
    if docs.isEmpty then ([SseEvent.error "No docs found"], false)
    else
      (SseEvent.sources (docs.map mkSourceItem) ::
        (frags.map SseEvent.token ++
          match genErr with
          | none => [SseEvent.done]
          | some m => [SseEvent.error m]), true)

/-- True exactly for error events. -/
def isErrorEvent : SseEvent → Bool
  | .error _ => true
  | _ => false

/-- True exactly for token events. -/
def isTokenEvent : SseEvent → Bool
  | .token _ => true
  | _ => false

/-- C1 counterexample: on a request whose retrieval succeeds with zero
results, the only event the stream emits is the error-typed event
SseEvent.error "No docs found" — an error event, not the normal non-error
event the claim asserts. -/
theorem no_docs_event_is_error :
    event_generator (.ok []) [] none = ([SseEvent.error "No docs found"], false) ∧
      isErrorEvent (SseEvent.error "No docs found") = true := by
  constructor
  · rfl
  · rfl

/-- C1 (amended): when retrieval yields zero results the service emits exactly
one terminal event and closes the stream without invoking generation, for any
behaviour of the generation provider — but that event is an error-typed event
with message "No docs found", not a normal non-error event. -/
theorem no_docs_terminal_error_without_generation (frags : List String) (genErr : Option String) :
    event_generator (.ok []) frags genErr = ([SseEvent.error "No docs found"], false) := by
  rfl

/-- Token events are kept unchanged by the token filter. -/
theorem filter_token_map_token (l : List String) :
    (l.map SseEvent.token).filter isTokenEvent = l.map SseEvent.token := by
  induction l with
  | nil => rfl
  | cons a l ih => simp [isTokenEvent, ih]

/-- No token event is an error event. -/
theorem filter_error_map_token (l : List String) :
    (l.map SseEvent.token).filter isErrorEvent = [] := by
  induction l with
  | nil => rfl
  | cons a l ih => simp [isErrorEvent, ih]

/-- C9: when the generation provider raises after yielding the fragments
`frags` on a request with at least one retrieved document, the stream is the
sources event, then exactly one token event per fragment (in order), then
exactly one error event, and it ends there: the number of token events equals
the number of fragments, exactly one error event is delivered, and no done
event occurs. -/
theorem midstream_error_event_shape (docs : List RetDoc) (frags : List String) (m : String)
    (hdocs : docs.isEmpty = false) :
    (event_generator (.ok docs) frags (some m)).1
        = SseEvent.sources (docs.map mkSourceItem)
            :: (frags.map SseEvent.token ++ [SseEvent.error m]) ∧
      ((event_generator (.ok docs) frags (some m)).1.filter isTokenEvent).length
        = frags.length ∧
      ((event_generator (.ok docs) frags (some m)).1.filter isErrorEvent).length = 1 ∧
      SseEvent.done ∉ (event_generator (.ok docs) frags (some m)).1 := by
  have hev : (event_generator (.ok docs) frags (some m)).1
      = SseEvent.sources (docs.map mkSourceItem)
          :: (frags.map SseEvent.token ++ [SseEvent.error m]) := by
    simp [event_generator, hdocs]
  refine ⟨hev, ?_, ?_, ?_⟩ <;> rw [hev]
  · simp [List.filter_append, isTokenEvent, filter_token_map_token]
  · simp [List.filter_append, isErrorEvent, filter_error_map_token]
  · simp [List.mem_append, List.mem_map]

/-- Witness for midstream_error_event_shape: one retrieved document, a
provider that fails after yielding exactly the two fragments "Hel" and "lo". -/
theorem midstream_error_event_shape_witness :
    (event_generator (.ok [⟨1, "t", "u", "T", 0⟩]) ["Hel", "lo"] (some "boom")).1
        = SseEvent.sources ([⟨(1 : ℚ), "t", "u", "T", 0⟩].map mkSourceItem)
            :: (["Hel", "lo"].map SseEvent.token ++ [SseEvent.error "boom"]) ∧
      ((event_generator (.ok [⟨1, "t", "u", "T", 0⟩]) ["Hel", "lo"] (some "boom")).1.filter
          isTokenEvent).length = (["Hel", "lo"] : List String).length ∧
      ((event_generator (.ok [⟨1, "t", "u", "T", 0⟩]) ["Hel", "lo"] (some "boom")).1.filter
          isErrorEvent).length = 1 ∧
      SseEvent.done ∉ (event_generator (.ok [⟨1, "t", "u", "T", 0⟩]) ["Hel", "lo"]
          (some "boom")).1 :=
  midstream_error_event_shape [⟨1, "t", "u", "T", 0⟩] ["Hel", "lo"] "boom" (by decide)

/-! ### Index builder (src/indexer/build_index.py) -/

/-- Constant BATCH_SIZE = 16 (build_index.py line 14). -/
def BATCH_SIZE : Nat := 16

/-- The fields of one chunk JSON record, after the data.get defaults of
load_chunks (build_index.py lines 57-62). -/
structure ChunkRec where
  text : String
  url : String
  title : String
  position : Nat
  checksum : String
deriving DecidableEq

/-- One file of the chunks directory: its name, its raw bytes (what
calculate_directory_hash reads), and its parse result — none models a file
json.load raises on, which load_chunks skips. -/
structure ChunkFile where
  name : String
  bytes : List Nat
  parsed : Option ChunkRec
deriving DecidableEq

/-- One metadata record as load_chunks builds it (build_index.py lines 58-65). -/
structure MetaRecord where
  url : String
  title : String
  position : Nat
  checksum : String
  filename : String
  indexed_at : String
deriving DecidableEq

/-- The state of the index_info.json file: missing, unreadable (json.load or
the .get raises), or readable with an optional content_hash entry. -/
inductive InfoState where
  | missing
  | unreadable
  | readable (contentHash : Option String)
deriving DecidableEq

/-- The index builder's observable filesystem: the chunks directory and its
files, the three persisted artifacts, and the clock value datetime.now()
renders to. -/
structure World where
  chunksDirExists : Bool
  chunkFiles : List ChunkFile
  faissExists : Bool
  faissIndex : List (List ℚ)
  metaExists : Bool
  metaContent : List MetaRecord
  infoFile : InfoState
  now : String
deriving DecidableEq

/-- Python `f.endswith(".json")`. -/
def endsWithJson (s : String) : Bool := List.isSuffixOf ".json".data s.data

/-- Insert into a name-sorted list of files (ascending, stable). -/
def insertByName (f : ChunkFile) : List ChunkFile → List ChunkFile
  | [] => [f]
  | g :: gs => if f.name ≤ g.name then f :: g :: gs else g :: insertByName f gs

/-- Python `sorted(...)` by filename, as both load_chunks and
calculate_directory_hash apply it. -/
def sortFiles : List ChunkFile → List ChunkFile
  | [] => []
  | f :: fs => insertByName f (sortFiles fs)

/-- The .json files of the chunks directory in sorted filename order — the
common iteration order of load_chunks (build_index.py lines 49-51) and
calculate_directory_hash (lines 78-79). -/
def sortedJsonFiles (w : World) : List ChunkFile :=
  sortFiles (w.chunkFiles.filter (fun f => endsWithJson f.name))

/-- load_chunks over the sorted readable files: a file json.load raises on is
skipped in the text list and the metadata list alike (build_index.py
lines 53-67). -/
def load_chunks_go (now : String) : List ChunkFile → List String × List MetaRecord
  | [] => ([], [])
  | f :: fs =>
    let rest := load_chunks_go now fs
    match f.parsed with
    | none => rest
    | some d => (d.text :: rest.1, ⟨d.url, d.title, d.position, d.checksum, f.name, now⟩ :: rest.2)

/-- load_chunks (build_index.py lines 41-69): empty on a missing directory,
otherwise the parallel text and metadata lists over the sorted .json files. -/
def load_chunks (w : World) : List String × List MetaRecord :=
  if !w.chunksDirExists then ([], [])
  else load_chunks_go w.now (sortedJsonFiles w)

/-- calculate_directory_hash (build_index.py lines 71-84): None when the
directory is missing, else the digest of the concatenated bytes of the sorted
.json files; the md5 itself is the external hashlib collaborator. -/
def calculate_directory_hash (md5 : List Nat → String) (w : World) : Option String :=
  if !w.chunksDirExists then none
  else some (md5 (((sortedJsonFiles w).map ChunkFile.bytes).flatten))

/-- should_reindex (build_index.py lines 86-113): true when the index file or
metadata file is missing, when index_info.json is missing or unreadable, or
when the stored content_hash differs from the current directory hash. -/
def should_reindex (md5 : List Nat → String) (w : World) : Bool :=
  if !w.faissExists || !w.metaExists then true
  else
    match w.infoFile with
    | InfoState.missing => true
    | InfoState.unreadable => true
    | InfoState.readable lastHash => decide (lastHash ≠ calculate_directory_hash md5 w)

/-- The loop body of get_gemini_embeddings (build_index.py lines 23-38): a
successful call appends its vector; a failed call appends a zero vector
shaped like the FIRST vector already in this call's local list
(np.zeros_like(embeddings[0])), or the declared default dimension 768 when
the local list is still empty. -/
def gge_go (embed : String → Option (List ℚ)) (acc : List (List ℚ)) :
    List String → List (List ℚ)
  | [] => acc
  | t :: ts =>
    match embed t with
    | some v => gge_go embed (acc ++ [v]) ts
    | none =>
      match acc with
      | e :: _ => gge_go embed (acc ++ [List.replicate e.length (0 : ℚ)]) ts
      | [] => gge_go embed (acc ++ [List.replicate 768 (0 : ℚ)]) ts

/-- get_gemini_embeddings (build_index.py line 20): the per-batch embedding
loop, starting from an empty local list on every call. -/
def get_gemini_embeddings (embed : String → Option (List ℚ)) (texts : List String) :
    List (List ℚ) :=
  gge_go embed [] texts

/-- Fuel-driven batching: take n, recurse on drop n. -/
def listBatchesAux {α : Type} (n : Nat) : Nat → List α → List (List α)
  | 0, _ => []
  | _, [] => []
  | fuel + 1, a :: l => ((a :: l).take n) :: listBatchesAux n fuel ((a :: l).drop n)

/-- Python `range(0, len(texts), BATCH_SIZE)` slicing (build_index.py
lines 153-154): the list cut into consecutive batches of size n. -/
def listBatches {α : Type} (n : Nat) (l : List α) : List (List α) :=
  listBatchesAux n l.length l

/-- The embedding loop of build_faiss_index (build_index.py lines 150-157):
get_gemini_embeddings applied per batch, results concatenated in order. -/
def all_embeddings (embed : String → Option (List ℚ)) (texts : List String) :
    List (List ℚ) :=
  ((listBatches BATCH_SIZE texts).map (get_gemini_embeddings embed)).flatten

/-- The outcome of build_faiss_index: the returned index (none models the
Python `return None, []` on an empty chunk set), the returned metadata, how
many embedding-provider calls were issued, and the filesystem afterwards. -/
structure BuildOut where
  index : Option (List (List ℚ))
  metas : List MetaRecord
  embedCalls : Nat
  world : World
deriving DecidableEq

/-- build_faiss_index (build_index.py lines 127-184). The no-rebuild path
returns the persisted index and metadata with zero embedding calls and the
filesystem untouched. The rebuild path loads the chunks, issues one provider
call per text, and — when np.stack accepts the vectors, i.e. all dimensions
agree — persists index, metadata and index_info (content_hash = current
directory hash) together; mismatched dimensions make np.stack raise, which
propagates before anything is written (.error). -/
def build_faiss_index (md5 : List Nat → String) (embed : String → Option (List ℚ))
    (force_reindex : Bool) (w : World) : Except String BuildOut :=
  if !force_reindex && !should_reindex md5 w then
    .ok ⟨some w.faissIndex, w.metaContent, 0, w⟩
  else
    let texts := (load_chunks w).1
    let metas := (load_chunks w).2
    if texts.length = 0 then .ok ⟨none, [], 0, w⟩
    else
      let embs := all_embeddings embed texts
      if embs.all (fun v => v.length = (embs.headD []).length) then
        .ok ⟨some embs, metas, texts.length,
          { w with faissExists := true, faissIndex := embs,
                   metaExists := true, metaContent := metas,
                   infoFile := InfoState.readable (calculate_directory_hash md5 w) }⟩
      else .error "ValueError: all input arrays must have the same shape"

/-- The embedding loop over an appended text list processes the first part
and then the second, carrying the local list. -/
theorem gge_go_append (embed : String → Option (List ℚ)) :
    ∀ (l1 l2 : List String) (acc : List (List ℚ)),
      gge_go embed acc (l1 ++ l2) = gge_go embed (gge_go embed acc l1) l2 := by
  intro l1
  induction l1 with
  | nil => intro l2 acc; rfl
  | cons t ts ih =>
    intro l2 acc
    simp only [List.cons_append, gge_go]
    cases embed t with
    | some v => exact ih l2 (acc ++ [v])
    | none =>
      cases acc with
      | nil => exact ih l2 _
      | cons e es => exact ih l2 _

/-- C6 (amended): when an embedding call fails, get_gemini_embeddings appends
a zero vector whose dimension is the length of the FIRST vector already in
the current call's (per-batch) local list — whether that first vector came
from a success or from an earlier substitution — and 768 exactly when the
local list is empty; the loop never aborts. Because build_faiss_index starts
a fresh get_gemini_embeddings call per batch, this dimension is batch-local,
not the dimension of the first successful embedding of the whole run. -/
theorem failed_embedding_substitution_dim (embed : String → Option (List ℚ))
    (ts : List String) (t : String) (hfail : embed t = none) :
    get_gemini_embeddings embed (ts ++ [t])
      = get_gemini_embeddings embed ts
        ++ [List.replicate
              (((get_gemini_embeddings embed ts).head?.map List.length).getD 768) (0 : ℚ)] := by
  unfold get_gemini_embeddings
  rw [gge_go_append]
  cases hacc : gge_go embed [] ts with
  | nil => simp [gge_go, hfail, hacc]
  | cons e es => simp [gge_go, hfail, hacc]

/-- A provider that always fails. -/
def embedNone : String → Option (List ℚ) := fun _ => none

/-- Witness for failed_embedding_substitution_dim: with every call failing,
the second text of ["a", "b"] is substituted by the zero vector shaped like
the first substitution (dimension 768). -/
theorem failed_embedding_substitution_dim_witness :
    get_gemini_embeddings embedNone (["a"] ++ ["b"])
      = get_gemini_embeddings embedNone ["a"]
        ++ [List.replicate
              (((get_gemini_embeddings embedNone ["a"]).head?.map List.length).getD 768) (0 : ℚ)] :=
  failed_embedding_substitution_dim embedNone ["a"] "b" rfl

/-- A provider that succeeds with a 1-dimensional vector on every text except
"X", on which it raises. -/
def exEmbed6 : String → Option (List ℚ) := fun t => if t = "X" then none else some [1]

/-- Sixteen texts that embed successfully followed by one that fails: the
failing call opens the second batch of 16. -/
def exTexts6 : List String := List.replicate 16 "ok" ++ ["X"]

/-- C6 counterexample: in a run whose first successful embedding has
dimension 1, the failing seventeenth call — the first call of its batch —
is substituted by a zero vector of dimension 768, not of dimension 1: the
substitute dimension is established per batch, not per run. -/
theorem failed_embedding_ignores_run_dimension :
    (all_embeddings exEmbed6 exTexts6).map List.length
      = List.replicate 16 1 ++ [768] := by
  decide

/-- The spec's rebuild condition, written from the spec's words: indices
missing, metadata missing, fingerprint record missing or unreadable, or
stored and current fingerprints differ. -/
def rebuildSpecCond (md5 : List Nat → String) (w : World) : Prop :=
  w.faissExists = false ∨ w.metaExists = false ∨ w.infoFile = InfoState.missing ∨
    w.infoFile = InfoState.unreadable ∨
    ∃ h, w.infoFile = InfoState.readable h ∧ h ≠ calculate_directory_hash md5 w

/-- C8: should_reindex returns true exactly under the spec's rebuild
condition; in particular, when both artifacts exist and the fingerprint
record is readable, equality of the stored and current fingerprints makes
should_reindex return false. -/
theorem should_reindex_iff_spec_cond (md5 : List Nat → String) (w : World) :
    (should_reindex md5 w = true ↔ rebuildSpecCond md5 w) ∧
      (∀ h, w.infoFile = InfoState.readable h →
        h = calculate_directory_hash md5 w →
        w.faissExists = true → w.metaExists = true →
        should_reindex md5 w = false) := by
  constructor
  · unfold should_reindex rebuildSpecCond
    by_cases hf : w.faissExists <;> by_cases hm : w.metaExists <;>
      cases hinfo : w.infoFile <;> simp [hf, hm, hinfo]
  · intro h hinfo heq hf hm
    unfold should_reindex
    simp [hf, hm, hinfo, heq]

/-- A concrete digest collaborator for witnesses. -/
def exMd5 : List Nat → String := fun _ => "h"

/-- A world whose persisted artifacts exist and whose stored fingerprint
matches the current directory hash. -/
def exWorldNoRebuild : World :=
  { chunksDirExists := true, chunkFiles := [], faissExists := true,
    faissIndex := [[1]], metaExists := true, metaContent := [],
    infoFile := InfoState.readable (some "h"), now := "T" }

/-- Witness for should_reindex_iff_spec_cond: on exWorldNoRebuild the stored
fingerprint equals the current one and should_reindex returns false. -/
theorem should_reindex_iff_spec_cond_witness :
    should_reindex exMd5 exWorldNoRebuild = false :=
  (should_reindex_iff_spec_cond exMd5 exWorldNoRebuild).2 (some "h") rfl rfl rfl rfl

/-- The directory hash only reads the chunks directory, which a build's
artifact writes leave untouched. -/
theorem calculate_directory_hash_after_build (md5 : List Nat → String) (w : World)
    (embs : List (List ℚ)) (metas : List MetaRecord) (info : InfoState) :
    calculate_directory_hash md5
        { w with faissExists := true, faissIndex := embs,
                 metaExists := true, metaContent := metas, infoFile := info }
      = calculate_directory_hash md5 w := by
  unfold calculate_directory_hash sortedJsonFiles
  rfl

/-- C7: with force false, (a) whenever should_reindex reports no rebuild,
build_faiss_index returns the persisted index and metadata unchanged with
zero embedding-provider calls and without touching the filesystem; and
(b) any second build call on the world a successful first call leaves behind
issues zero embedding-provider calls. -/
theorem no_rebuild_path_zero_embed_calls :
    (∀ (md5 : List Nat → String) (embed : String → Option (List ℚ)) (w : World),
        should_reindex md5 w = false →
        build_faiss_index md5 embed false w
          = .ok ⟨some w.faissIndex, w.metaContent, 0, w⟩) ∧
      (∀ (md5 : List Nat → String) (embed : String → Option (List ℚ)) (w : World)
          (o : BuildOut), build_faiss_index md5 embed false w = .ok o →
        ∃ o2, build_faiss_index md5 embed false o.world = .ok o2 ∧ o2.embedCalls = 0) := by
  have part1 : ∀ (md5 : List Nat → String) (embed : String → Option (List ℚ)) (w : World),
      should_reindex md5 w = false →
      build_faiss_index md5 embed false w = .ok ⟨some w.faissIndex, w.metaContent, 0, w⟩ := by
    intro md5 embed w h
    unfold build_faiss_index
    simp [h]
  refine ⟨part1, ?_⟩
  intro md5 embed w o hbuild
  by_cases hsr : should_reindex md5 w = false
  · rw [part1 md5 embed w hsr] at hbuild
    cases hbuild
    exact ⟨_, part1 md5 embed w hsr, rfl⟩
  · have hsr2 : should_reindex md5 w = true := by
      cases h : should_reindex md5 w
      · exact absurd h hsr
      · rfl
    unfold build_faiss_index at hbuild
    simp only [hsr2, Bool.not_true, Bool.and_false, Bool.false_eq_true, if_false] at hbuild
    by_cases htx : (load_chunks w).1.length = 0
    · rw [if_pos htx] at hbuild
      cases hbuild
      refine ⟨⟨none, [], 0, w⟩, ?_, rfl⟩
      unfold build_faiss_index
      simp only [hsr2, Bool.not_true, Bool.and_false, Bool.false_eq_true, if_false]
      rw [if_pos htx]
    · rw [if_neg htx] at hbuild
      by_cases hall : (all_embeddings embed (load_chunks w).1).all
          (fun v => v.length = ((all_embeddings embed (load_chunks w).1).headD []).length)
      · rw [if_pos hall] at hbuild
        cases hbuild
        refine ⟨_, part1 md5 embed _ ?_, rfl⟩
        unfold should_reindex
        simp [calculate_directory_hash_after_build]
      · rw [if_neg hall] at hbuild
        cases hbuild

/-- A provider that always succeeds with a 1-dimensional vector. -/
def exEmbedOne : String → Option (List ℚ) := fun _ => some [1]

/-- Witness for no_rebuild_path_zero_embed_calls: on exWorldNoRebuild the
build returns the persisted artifacts with zero embedding calls, and the
second call after it also issues zero embedding calls. -/
theorem no_rebuild_path_zero_embed_calls_witness :
    build_faiss_index exMd5 exEmbedOne false exWorldNoRebuild
        = .ok ⟨some exWorldNoRebuild.faissIndex, exWorldNoRebuild.metaContent, 0,
            exWorldNoRebuild⟩ ∧
      ∃ o2, build_faiss_index exMd5 exEmbedOne false exWorldNoRebuild = .ok o2 ∧
        o2.embedCalls = 0 :=
  ⟨no_rebuild_path_zero_embed_calls.1 exMd5 exEmbedOne exWorldNoRebuild rfl,
    no_rebuild_path_zero_embed_calls.2 exMd5 exEmbedOne exWorldNoRebuild
      ⟨some exWorldNoRebuild.faissIndex, exWorldNoRebuild.metaContent, 0, exWorldNoRebuild⟩
      (no_rebuild_path_zero_embed_calls.1 exMd5 exEmbedOne exWorldNoRebuild rfl)⟩

/-- The embedding loop returns one vector per input text. -/
theorem gge_go_length (embed : String → Option (List ℚ)) :
    ∀ (ts : List String) (acc : List (List ℚ)),
      (gge_go embed acc ts).length = acc.length + ts.length := by
  intro ts
  induction ts with
  | nil => intro acc; simp [gge_go]
  | cons t ts ih =>
    intro acc
    simp only [gge_go]
    cases embed t with
    | some v => rw [ih]; simp; omega
    | none =>
      cases acc with
      | nil => rw [ih]; simp [Nat.add_comm]
      | cons e es => rw [ih]; simp; omega

/-- get_gemini_embeddings returns one vector per input text: a failing call
still contributes exactly one (zero) vector, so the build never drops or
aborts an item. -/
theorem get_gemini_embeddings_length (embed : String → Option (List ℚ))
    (ts : List String) : (get_gemini_embeddings embed ts).length = ts.length := by
  simpa using gge_go_length embed ts []

/-- With positive batch size and enough fuel, flattening the batches gives
back the original list. -/
theorem listBatchesAux_flatten {α : Type} (n : Nat) (hn : 0 < n) :
    ∀ (fuel : Nat) (l : List α), l.length ≤ fuel →
      (listBatchesAux n fuel l).flatten = l := by
  intro fuel
  induction fuel with
  | zero =>
    intro l hl
    cases l with
    | nil => rfl
    | cons a l => simp at hl
  | succ fuel ih =>
    intro l hl
    cases l with
    | nil => cases n <;> rfl
    | cons a l =>
      cases n with
      | zero => exact absurd hn (by simp)
      | succ m =>
        simp only [listBatchesAux, List.flatten_cons]
        rw [ih]
        · exact List.take_append_drop (m + 1) (a :: l)
        · have hdrop : ((a :: l).drop (m + 1)).length = (a :: l).length - (m + 1) :=
            List.length_drop (m + 1) (a :: l)
          simp at hl ⊢
          omega

/-- Flattening the BATCH_SIZE batches gives back the text list. -/
theorem listBatches_flatten {α : Type} (l : List α) :
    (listBatches BATCH_SIZE l).flatten = l :=
  listBatchesAux_flatten BATCH_SIZE (by decide) l.length l (Nat.le_refl _)

/-- The batched embedding loop returns one vector per input text. -/
theorem all_embeddings_length (embed : String → Option (List ℚ)) (texts : List String) :
    (all_embeddings embed texts).length = texts.length := by
  unfold all_embeddings
  have hmap : ∀ bs : List (List String),
      ((bs.map (get_gemini_embeddings embed)).flatten).length = bs.flatten.length := by
    intro bs
    induction bs with
    | nil => rfl
    | cons b bs ih => simp [get_gemini_embeddings_length, ih]
  rw [hmap, listBatches_flatten]

/-- load_chunks builds the text and metadata lists in lockstep: a skipped
file is skipped in both. -/
theorem load_chunks_go_length (now : String) :
    ∀ fs : List ChunkFile,
      (load_chunks_go now fs).1.length = (load_chunks_go now fs).2.length := by
  intro fs
  induction fs with
  | nil => rfl
  | cons f fs ih =>
    simp only [load_chunks_go]
    cases f.parsed with
    | none => exact ih
    | some d => simp [ih]

/-- The text and metadata lists load_chunks returns have equal length. -/
theorem load_chunks_length (w : World) :
    (load_chunks w).1.length = (load_chunks w).2.length := by
  unfold load_chunks
  by_cases hd : w.chunksDirExists <;> simp [hd, load_chunks_go_length]

/-- C10: whenever build_faiss_index takes the rebuild path (force or a
detected change) and returns a newly constructed index, the number of vectors
in the index equals the number of metadata records — across every combination
of unreadable chunk files (skipped in both parallel lists) and failed
embedding calls (each still contributes exactly one vector). -/
theorem built_index_vector_count_eq_meta_count (md5 : List Nat → String)
    (embed : String → Option (List ℚ)) (w : World) (force : Bool) (o : BuildOut)
    (v : List (List ℚ)) (hbuild : build_faiss_index md5 embed force w = .ok o)
    (hpath : force = true ∨ should_reindex md5 w = true) (hidx : o.index = some v) :
    v.length = o.metas.length := by
  unfold build_faiss_index at hbuild
  have hcond : (!force && !should_reindex md5 w) = false := by
    rcases hpath with h | h <;> simp [h]
  rw [hcond] at hbuild
  simp only [Bool.false_eq_true, if_false] at hbuild
  by_cases htx : (load_chunks w).1.length = 0
  · rw [if_pos htx] at hbuild
    cases hbuild
    simp at hidx
  · rw [if_neg htx] at hbuild
    by_cases hall : (all_embeddings embed (load_chunks w).1).all
        (fun vv => vv.length = ((all_embeddings embed (load_chunks w).1).headD []).length)
    · rw [if_pos hall] at hbuild
      cases hbuild
      simp only [Option.some.injEq] at hidx
      subst hidx
      rw [all_embeddings_length]
      exact load_chunks_length w
    · rw [if_neg hall] at hbuild
      cases hbuild

/-- A world with one readable chunk file and no persisted artifacts. -/
def exWorld10 : World :=
  { chunksDirExists := true,
    chunkFiles := [⟨"a.json", [1, 2], some ⟨"hello", "u", "T", 0, "ck"⟩⟩],
    faissExists := false, faissIndex := [], metaExists := false,
    metaContent := [], infoFile := InfoState.missing, now := "T" }

/-- The world exWorld10 after a successful build run. -/
def exWorld10After : World :=
  { exWorld10 with faissExists := true, faissIndex := [[1]],
                   metaExists := true, metaContent := [⟨"u", "T", 0, "ck", "a.json", "T"⟩],
                   infoFile := InfoState.readable (some "h") }

/-- Witness for built_index_vector_count_eq_meta_count: a forced build over
one chunk yields one vector and one metadata record. -/
theorem built_index_vector_count_eq_meta_count_witness :
    ([[(1 : ℚ)]] : List (List ℚ)).length
      = ([⟨"u", "T", 0, "ck", "a.json", "T"⟩] : List MetaRecord).length :=
  built_index_vector_count_eq_meta_count exMd5 exEmbedOne exWorld10 true
    ⟨some [[1]], [⟨"u", "T", 0, "ck", "a.json", "T"⟩], 1, exWorld10After⟩
    [[1]] rfl (Or.inl rfl) rfl
